import Mathlib

/-!
Shallow embedding of `src/mcp_server_deep_research/server.py`: the session
state store (`ResearchProcessor`), the five request handlers registered on the
MCP server inside `main`, the static prompt template, and Python-faithful
models of `json.dumps(..., indent=2)`, `str.format` for the single
`research_question` placeholder, and `str.strip`.

Python dictionaries preserve insertion order, so `research_data` is embedded
as an association list; `d[key] = value` replaces the value in place when the
key is present and appends a new entry otherwise (`dictSet`).
-/

namespace DeepResearch

/-- JSON-like values, the possible contents of the `research_data` dict
    (strings, lists, string-keyed dicts cover every value the server stores). -/
inductive JValue where
  | str (s : String)
  | arr (elems : List JValue)
  | obj (fields : List (String × JValue))

/-- Python `d[key] = value` on an insertion-ordered dict embedded as an
    association list: replace in place if the key is present, append otherwise. -/
def dictSet (d : List (String × JValue)) (k : String) (v : JValue) :
    List (String × JValue) :=
  if d.any (fun p => p.1 == k) then
    d.map (fun p => if p.1 == k then (k, v) else p)
  else
    d ++ [(k, v)]

/-- Python `d[key]` / `key in d`: first entry with the given key. -/
def dictLookup (d : List (String × JValue)) (k : String) : Option JValue :=
  (d.find? (fun p => p.1 == k)).map (·.2)

/-- The session state store: `ResearchProcessor.__init__` fields
    `research_data` and `notes`. -/
structure ResearchProcessor where
  research_data : List (String × JValue)
  notes : List String

/-- `ResearchProcessor.__init__`: the six fields at their empty defaults,
    no notes. -/
def initialProcessor : ResearchProcessor :=
  { research_data :=
      [("question", .str ""),
       ("elaboration", .str ""),
       ("subquestions", .arr []),
       ("search_results", .obj []),
       ("extracted_content", .obj []),
       ("final_report", .str "")],
    notes := [] }

/-- `ResearchProcessor.add_note`: append to the notes list. -/
def add_note (s : ResearchProcessor) (note : String) : ResearchProcessor :=
  { s with notes := s.notes ++ [note] }

/-- `ResearchProcessor.update_research_data`: set `research_data[key] = value`
    (no validation of `key` in the source) and add the
    "Updated research data: {key}" note. -/
def update_research_data (s : ResearchProcessor) (key : String) (value : JValue) :
    ResearchProcessor :=
  add_note { s with research_data := dictSet s.research_data key value }
    ("Updated research data: " ++ key)

/-- `ResearchProcessor.get_research_notes`: `"\n".join(self.notes)`. -/
def get_research_notes (s : ResearchProcessor) : String :=
  String.intercalate "\n" s.notes

/-- `ResearchProcessor.get_research_data`: returns `self.research_data`
    itself, not a copy.  The Python method hands out the live dict object, so
    observing the returned reference after a later mutation is modelled by
    applying this function to the later state. -/
def get_research_data (s : ResearchProcessor) : List (String × JValue) :=
  s.research_data

/-! Python `json.dumps(value, indent=2)` with its default `ensure_ascii=True`
    escaping and the `(',', ': ')` separators used when an indent is given. -/

/-- Lowercase hexadecimal digit, as in Python \uXXXX escapes. -/
def hexDigit (n : Nat) : Char :=
  if n < 10 then Char.ofNat (48 + n) else Char.ofNat (87 + n)

/-- Four lowercase hexadecimal digits. -/
def hex4 (n : Nat) : String :=
  ⟨[hexDigit (n / 4096 % 16), hexDigit (n / 256 % 16),
    hexDigit (n / 16 % 16), hexDigit (n % 16)]⟩

/-- Escape one character the way `json.dumps` with `ensure_ascii=True` does:
    short escapes for quote, backslash and common controls, \uXXXX for other
    controls and all non-ASCII characters, surrogate pairs above U+FFFF. -/
def pyJsonEscapeChar (c : Char) : String :=
  if c = '"' then "\\\""
  else if c = '\\' then "\\\\"
  else if c = '\n' then "\\n"
  else if c = '\r' then "\\r"
  else if c = '\t' then "\\t"
  else if c = '\x08' then "\\b"
  else if c = '\x0c' then "\\f"
  else if c.toNat < 0x20 then "\\u" ++ hex4 c.toNat
  else if c.toNat < 0x7f then String.singleton c
  else if c.toNat ≤ 0xffff then "\\u" ++ hex4 c.toNat
  else
    "\\u" ++ hex4 (0xd800 + (c.toNat - 0x10000) / 0x400) ++
    "\\u" ++ hex4 (0xdc00 + (c.toNat - 0x10000) % 0x400)

/-- `json.dumps` escaping of a whole string (without the surrounding quotes). -/
def pyJsonEscape (s : String) : String :=
  String.join (s.data.map pyJsonEscapeChar)

/-- `n` spaces, the indentation prefix at nesting depth `n / 2`. -/
def indentSpaces (n : Nat) : String :=
  String.mk (List.replicate n ' ')

mutual

/-- `json.dumps(v, indent=2)` at current indentation width `ind`: empty
    containers print inline, non-empty ones one element per line, each line
    indented two more spaces than the container. -/
def dumpVal (ind : Nat) : JValue → String
  | .str s => "\"" ++ pyJsonEscape s ++ "\""
  | .arr [] => "[]"
  | .arr (x :: xs) =>
      "[\n" ++ indentSpaces (ind + 2) ++ dumpVal (ind + 2) x ++
      dumpArr (ind + 2) xs ++ "\n" ++ indentSpaces ind ++ "]"
  | .obj [] => "\x7b\x7d"
  | .obj (f :: fs) =>
      "\x7b\n" ++ indentSpaces (ind + 2) ++ dumpField (ind + 2) f ++
      dumpObj (ind + 2) fs ++ "\n" ++ indentSpaces ind ++ "\x7d"

/-- One `"key": value` member of an object. -/
def dumpField (ind : Nat) : String × JValue → String
  | (k, v) => "\"" ++ pyJsonEscape k ++ "\": " ++ dumpVal ind v

/-- Remaining array elements, each preceded by `,\n` and indentation. -/
def dumpArr (ind : Nat) : List JValue → String
  | [] => ""
  | x :: xs => ",\n" ++ indentSpaces ind ++ dumpVal ind x ++ dumpArr ind xs

/-- Remaining object members, each preceded by `,\n` and indentation. -/
def dumpObj (ind : Nat) : List (String × JValue) → String
  | [] => ""
  | f :: fs => ",\n" ++ indentSpaces ind ++ dumpField ind f ++ dumpObj ind fs

end

/-- `json.dumps(d, indent=2)` for the top-level `research_data` dict, as used
    by `handle_read_resource`. -/
def jsonDumps2 (d : List (String × JValue)) : String :=
  dumpVal 0 (.obj d)

/-! The static template and the string operations `handle_get_prompt`
    applies to it. -/

/-- The module-level `PROMPT_TEMPLATE` constant, the text between the
    triple quotes in the source (braces, quotes and apostrophes written
    as escapes; the value is byte-for-byte the Python string). -/
def PROMPT_TEMPLATE : String :=
  "\nYou are a researcher exploring: \x7bresearch_question\x7d\n\nYour task is iterative discovery - not template filling. Follow curiosity, not checklists.\n\n## CRITICAL: Use Real Research Tools, Not AI Consultation\n\nYou MUST perform actual research using concrete tools:\n- WebSearch: For finding information on the internet\n- WebFetch: For extracting content from specific URLs\n- File analysis: For examining code, documentation, data\n\nDO NOT:\n- \"Consult\" or \"ask\" other AIs for their thoughts\n- Simulate research by imagining what sources might say\n- Generate hypothetical findings without actual searches\n- Use phrases like \"I\x27ll consult with a peer AI\" or \"Let me ask another agent\"\n\nEvery finding must come from a real source you\x27ve actually searched for and read.\n\nCORRECT approach:\n\"I\x27ll search for information about quantum computing applications\"\n→ Uses WebSearch with query \"quantum computing real world applications 2024\"\n→ Finds arxiv.org paper, uses WebFetch to read it\n→ Cites specific findings: \"According to arxiv.org/abs/2024.xxxxx...\"\n\nWRONG approach:\n\"Let me consult with an AI specialized in quantum computing\"\n\"I\x27ll ask another agent what they know about this\"\n\"Based on what other AIs might say about quantum computing...\"\n\n## Research Process\n\n**Maintain a living question queue:**\nStart by creating a list of initial questions about your topic. As you research:\n- Add new questions that emerge from your findings\n- Mark questions as answered when sufficiently explored\n- Track the depth level of each question (initial = level 1, questions spawned from level 1 = level 2, etc.)\n- Continue until your queue is empty AND no new questions emerge\n\nThis queue is your compass - you\x27re not done until it\x27s exhausted.\n\n**Initial exploration:**\n- Map the landscape. What are the key concepts, actors, and relationships?\n- Generate 5-10 initial subquestions for your queue (these are level 1)\n- Identify which threads seem most promising to pursue first\n\n**MANDATORY iterative deepening:**\nYou MUST go at least 3 levels deep. Most initial research stops at level 1 - this is unacceptable.\n\nLevel 1: Your initial questions\nLevel 2: Questions that arise from level 1 answers (MANDATORY - each level 1 question must spawn 2-3 level 2 questions)\nLevel 3: Questions that arise from level 2 answers (MANDATORY - at least half of level 2 questions must spawn level 3 questions)\nLevel 4+: Continue if the topic demands it\n\nProcess - PARALLELIZE FOR SPEED:\n1. After generating initial questions, group them by independence (questions that don\x27t depend on each other\x27s answers)\n2. Launch MULTIPLE research tasks IN PARALLEL using the Task tool:\n   - Each task MUST be instructed to use WebSearch and WebFetch for actual research\n   - Each parallel task takes 2-3 independent questions\n   - Run 3-5 research tasks simultaneously when possible\n   - Explicitly tell each task: \"Use WebSearch to find information, then WebFetch to read sources\"\n   - This dramatically reduces research time and keeps each task\x27s context focused\n3. When tasks complete, synthesize their findings and generate level 2 questions\n4. Again, group independent questions and launch parallel research tasks\n5. Continue this parallel exploration pattern through all depth levels\n\nFor EACH research task - USE ACTUAL RESEARCH TOOLS:\n1. Pick assigned questions from the queue\n2. MANDATORY - Perform REAL research using these tools:\n   - WebSearch: Search the internet for current information, academic papers, documentation\n   - WebFetch: Extract detailed content from specific URLs found during search\n   - File reading: Analyze code repositories, documentation, technical specs\n   - DO NOT just \"consult\" or \"ask\" other AIs for their opinions\n   - DO NOT simulate research or make up findings\n3. Gather PRIMARY SOURCES:\n   - Academic papers, technical documentation, official websites\n   - Code repositories, API documentation, specifications\n   - News articles, research reports, data sets\n   - Expert interviews, conference talks, lectures (via transcripts)\n4. MANDATORY: Generate 2-3 follow-up questions from EVERY answer:\n   - \"This source mentions X - what exactly is X? What are X\x27s implications?\"\n   - \"These experts disagree on Y - why? What evidence supports each side?\"\n   - \"This claims Z - what\x27s the mechanism? What are the edge cases?\"\n   - \"This pattern emerges - does it hold in other contexts? What are the exceptions?\"\n5. Return concrete findings with source citations to main research process\n\nCRITICAL: Use parallel research tasks with REAL web searches and data gathering. You must use WebSearch, WebFetch, and other concrete research tools. DO NOT simulate research by consulting AI peers - that\x27s not research, it\x27s speculation. If you\x27re not actively searching and reading real sources, you\x27re doing it wrong.\n\nWARNING: If you find yourself with fewer than 15 total questions across all levels, you\x27re not going deep enough. Real research is fractal - every answer opens multiple new doors.\n\nVERIFICATION CHECKLIST - Before proceeding to the next level:\n- Have I performed at least 3 WebSearch queries per question?\n- Have I used WebFetch to read at least 2 sources per question?\n- Can I cite specific URLs for every claim I make?\n- Have I found primary sources, not just AI-generated summaries?\nIf any answer is NO, you haven\x27t done real research yet.\n\n**Source evaluation:**\n- Not all sources are equal. Note credibility, recency, and potential biases\n- When sources contradict, investigate why - often the most interesting insights lie here\n- Primary sources > secondary sources > opinion pieces\n\n**Synthesis focus:**\nDon\x27t just collect facts - connect them:\n- How do findings relate to each other?\n- What patterns emerge across sources?\n- Where do experts disagree and why?\n- What remains unknown or uncertain?\n\n## Writing Your Findings\n\nLet structure emerge from content, not vice versa. Your research might naturally organize as:\n- A narrative journey through evolving understanding\n- Technical deep-dive with code examples and architecture details\n- Comparative analysis with side-by-side evaluation\n- Historical progression showing how thinking evolved\n- Problem-solution exploration\n- Or something else entirely\n\nWrite concisely. Every sentence should add value. No padding, no boilerplate sections.\n\nGood research writing:\n- States findings clearly with evidence\n- Acknowledges contradictions and uncertainties\n- Cites sources inline naturally (not in a bibliography dump)\n- Uses formatting (tables, lists, code blocks) only when it clarifies\n- Stops when the essential is communicated\n\nBad research writing:\n- Forces findings into predetermined sections\n- Includes \"executive summaries\" that just repeat content\n- Lists \"key benefits\" or \"success metrics\" unnecessarily\n- Adds \"next steps\" when not requested\n- Uses passive voice to sound academic\n\n## What Not to Do\n\n- Don\x27t write sections just because they\x27re traditional (no forced \"Introduction\", \"Methodology\", \"Conclusion\")\n- Don\x27t claim comprehensiveness - all research has boundaries\n- Don\x27t hide uncertainty behind confident language\n- Don\x27t make up information to fill gaps\n- Don\x27t write meta-commentary about your research process\n\nBegin. Follow threads. Build understanding. Write what matters.\n"

/-- Python `str.format` on `PROMPT_TEMPLATE`: the template contains exactly
    one replacement field, `\x7bresearch_question\x7d`, and no other braces,
    so formatting is the literal substitution of that field by the supplied
    value. -/
def formatPromptTemplate (q : String) : String :=
  PROMPT_TEMPLATE.replace "\x7bresearch_question\x7d" q

/-- The whitespace characters `str.strip()` removes (the ASCII ones; the
    template and its rendering only ever carry these at the ends). -/
def pySpace (c : Char) : Bool :=
  c = ' ' || c = '\t' || c = '\n' || c = '\r' || c = '\x0b' || c = '\x0c'

/-- Python `str.strip()`: drop whitespace from both ends. -/
def pyStrip (s : String) : String :=
  ⟨((s.data.dropWhile pySpace).reverse.dropWhile pySpace).reverse⟩

/-! The five request handlers registered in `main`.  Each Python handler is a
    closure over the one `research_processor`; the embedding passes that state
    explicitly.  A Python `raise ValueError(...)` becomes an `Except.error`
    carrying a `ServerError` that records the message's content. -/

/-- The three `ValueError`s the handlers can raise, by message. -/
inductive ServerError where
  | unknownResource (uri : String)
  | unknownPrompt (name : String)
  | missingArgument
deriving DecidableEq

/-- The `ValueError` message attached to each error. -/
def ServerError.message : ServerError → String
  | .unknownResource uri => "Unknown resource: " ++ uri
  | .unknownPrompt name => "Unknown prompt: " ++ name
  | .missingArgument => "Missing required argument: research_question"

/-- `mcp.types.Resource`, the fields the server populates. -/
structure Resource where
  uri : String
  name : String
  description : String
  mimeType : String
deriving DecidableEq

/-- `mcp.types.PromptArgument`. -/
structure PromptArgument where
  name : String
  description : String
  required : Bool
deriving DecidableEq

/-- `mcp.types.Prompt`. -/
structure Prompt where
  name : String
  description : String
  arguments : List PromptArgument
deriving DecidableEq

/-- `mcp.types.Tool`, the fields relevant here (none are ever populated:
    the server exposes no tools). -/
structure Tool where
  name : String
deriving DecidableEq

/-- `mcp.types.TextContent`. -/
structure TextContent where
  type : String
  text : String
deriving DecidableEq

/-- `mcp.types.PromptMessage`. -/
structure PromptMessage where
  role : String
  content : TextContent
deriving DecidableEq

/-- `mcp.types.GetPromptResult`. -/
structure GetPromptResult where
  description : String
  messages : List PromptMessage
deriving DecidableEq

/-- The first descriptor returned by `handle_list_resources`. -/
def notesResourceDescriptor : Resource :=
  { uri := "research://notes",
    name := "Research Process Notes",
    description := "Notes generated during the research process",
    mimeType := "text/plain" }

/-- The second descriptor returned by `handle_list_resources`. -/
def dataResourceDescriptor : Resource :=
  { uri := "research://data",
    name := "Research Data",
    description := "Structured data collected during the research process",
    mimeType := "application/json" }

/-- `handle_list_resources`: a closure over the session that reads none of
    it and returns the two fixed descriptors. -/
def handle_list_resources (_s : ResearchProcessor) : List Resource :=
  [notesResourceDescriptor, dataResourceDescriptor]

/-- `handle_read_resource`: notes as joined text, data as indented JSON,
    `ValueError` for any other uri.  It never mutates the session. -/
def handle_read_resource (uri : String) (s : ResearchProcessor) :
    Except ServerError String :=
  if uri = "research://notes" then
    .ok (get_research_notes s)
  else if uri = "research://data" then
    .ok (jsonDumps2 (get_research_data s))
  else
    .error (.unknownResource uri)

/-- The one descriptor returned by `handle_list_prompts`. -/
def deepResearchPromptDescriptor : Prompt :=
  { name := "deep-research",
    description := "A prompt to conduct deep research on a question",
    arguments :=
      [{ name := "research_question",
         description := "The research question to investigate",
         required := true }] }

/-- `handle_list_prompts`: the single fixed prompt descriptor. -/
def handle_list_prompts (_s : ResearchProcessor) : List Prompt :=
  [deepResearchPromptDescriptor]

/-- `handle_list_tools`: the server exposes no tools. -/
def handle_list_tools (_s : ResearchProcessor) : List Tool :=
  []

/-- Python `arguments[k]` / `k in arguments` on the string-to-string
    argument dict, embedded as an association list. -/
def lookupStr (args : List (String × String)) (k : String) : Option String :=
  (args.find? (fun p => p.1 == k)).map (·.2)

/-- `handle_get_prompt`.  The source checks `name != DEEP_RESEARCH` first,
    then `not arguments or RESEARCH_QUESTION not in arguments` (an absent or
    empty dict, or one without the key — an empty dict has no key, so the
    nested match below covers exactly that condition), then renders the
    template, stores the question, adds the initiation note, and returns the
    one user message with the stripped rendering.  The pair's second component
    is the session state after the call; the error branches raise before any
    mutation, so they return the input state. -/
def handle_get_prompt (name : String) (arguments : Option (List (String × String)))
    (s : ResearchProcessor) : Except ServerError GetPromptResult × ResearchProcessor :=
  if name = "deep-research" then
    match arguments with
    | none => (.error .missingArgument, s)
    | some args =>
      match lookupStr args "research_question" with
      | none => (.error .missingArgument, s)
      | some research_question =>
        let prompt := formatPromptTemplate research_question
        let s1 := update_research_data s "question" (.str research_question)
        let s2 := add_note s1 ("Research initiated on question: " ++ research_question)
        (.ok { description := "Deep research template for: " ++ research_question,
               messages :=
                 [{ role := "user",
                    content := { type := "text", text := pyStrip prompt } }] },
         s2)
  else
    (.error (.unknownPrompt name), s)

/-! Session traces: the stdio loop handles one request at a time, in order;
    only `handle_get_prompt` can change the session state. -/

/-- One incoming request, dispatched to the five handlers. -/
inductive Request where
  | listResources
  | readResource (uri : String)
  | listPrompts
  | getPrompt (name : String) (arguments : Option (List (String × String)))
  | listTools

/-- The session state after serving one request. -/
def stepState (s : ResearchProcessor) : Request → ResearchProcessor
  | .getPrompt name args => (handle_get_prompt name args s).2
  | _ => s

/-- The session state after serving a list of requests in order. -/
def run (s : ResearchProcessor) (reqs : List Request) : ResearchProcessor :=
  reqs.foldl stepState s

/-- The shape every reachable `research_data` has: the six fields in their
    fixed order, all at the empty defaults except `question`. -/
def mkData (q : String) : List (String × JValue) :=
  [("question", .str q),
   ("elaboration", .str ""),
   ("subquestions", .arr []),
   ("search_results", .obj []),
   ("extracted_content", .obj []),
   ("final_report", .str "")]

/-- The source's `not arguments or PromptArgs.RESEARCH_QUESTION not in arguments`
    condition on line 273: the arguments dict is absent, empty, or lacks the
    `research_question` key (an empty dict lacks every key). -/
def questionMissing : Option (List (String × String)) → Bool
  | none => true
  | some args => (lookupStr args "research_question").isNone

/-! Helper lemmas about the association-list dict. -/

theorem find?_map_setEntry (d : List (String × JValue)) (k : String) (v : JValue)
    (h : d.any (fun p => p.1 == k) = true) :
    (d.map (fun p => if p.1 == k then (k, v) else p)).find? (fun p => p.1 == k)
      = some (k, v) := by
  induction d with
  | nil => simp at h
  | cons hd tl ih =>
    by_cases hk : hd.1 == k
    · simp only [List.map_cons, if_pos hk]
      exact List.find?_cons_of_pos _ (by simp)
    · simp only [List.any_cons, Bool.or_eq_true] at h
      have htl : tl.any (fun p => p.1 == k) = true := by
        rcases h with h | h
        · exact absurd h hk
        · exact h
      simp only [List.map_cons, if_neg hk]
      rw [List.find?_cons_of_neg _ (by simpa using hk)]
      exact ih htl

theorem dictLookup_dictSet_self (d : List (String × JValue)) (k : String) (v : JValue) :
    dictLookup (dictSet d k v) k = some v := by
  unfold dictLookup dictSet
  by_cases h : d.any (fun p => p.1 == k) = true
  · rw [if_pos h, find?_map_setEntry d k v h]
    rfl
  · rw [if_neg h, List.find?_append]
    have hnone : d.find? (fun p => p.1 == k) = none := by
      rw [List.find?_eq_none]
      intro x hx hpx
      exact h (List.any_eq_true.mpr ⟨x, hx, hpx⟩)
    rw [hnone]
    simp [List.find?_cons_of_pos]

/-! A trichotomy for `handle_get_prompt`: unknown prompt, missing argument, or
    full success, each with the exact result pair. -/

theorem handle_get_prompt_cases (name : String)
    (args : Option (List (String × String))) (s : ResearchProcessor) :
    (name ≠ "deep-research" ∧
      handle_get_prompt name args s = (.error (.unknownPrompt name), s)) ∨
    (name = "deep-research" ∧ questionMissing args = true ∧
      handle_get_prompt name args s = (.error .missingArgument, s)) ∨
    (name = "deep-research" ∧ ∃ args' q, args = some args' ∧
      lookupStr args' "research_question" = some q ∧
      questionMissing args = false ∧
      handle_get_prompt name args s =
        (.ok { description := "Deep research template for: " ++ q,
               messages :=
                 [{ role := "user",
                    content := { type := "text",
                                 text := pyStrip (formatPromptTemplate q) } }] },
         { research_data := dictSet s.research_data "question" (.str q),
           notes := s.notes ++ ["Updated research data: question",
                                "Research initiated on question: " ++ q] })) := by
  by_cases hn : name = "deep-research"
  · subst hn
    cases args with
    | none =>
      right; left
      exact ⟨rfl, rfl, by simp [handle_get_prompt]⟩
    | some args' =>
      cases hq : lookupStr args' "research_question" with
      | none =>
        right; left
        refine ⟨rfl, by simp [questionMissing, hq], ?_⟩
        simp [handle_get_prompt, hq]
      | some q =>
        right; right
        refine ⟨rfl, args', q, rfl, hq, by simp [questionMissing, hq], ?_⟩
        simp [handle_get_prompt, hq, update_research_data, add_note]
  · left
    exact ⟨hn, by simp [handle_get_prompt, hn]⟩

/-- Any failing `handle_get_prompt` call returns the session state unchanged. -/
theorem handle_get_prompt_error_state (name : String)
    (args : Option (List (String × String))) (s : ResearchProcessor)
    (h : (handle_get_prompt name args s).1.isOk = false) :
    (handle_get_prompt name args s).2 = s := by
  rcases handle_get_prompt_cases name args s with ⟨_, he⟩ | ⟨_, _, he⟩ | ⟨_, _, _, _, _, _, he⟩
  · rw [he]
  · rw [he]
  · rw [he] at h
    simp [Except.isOk, Except.toBool] at h

/-- Setting `question` on a record of the reachable shape keeps the shape. -/
theorem dictSet_mkData (q q' : String) :
    dictSet (mkData q) "question" (.str q') = mkData q' := rfl

/-- One served request preserves the shape of `research_data`. -/
theorem stepState_mkData (s : ResearchProcessor) (r : Request) (q : String)
    (h : s.research_data = mkData q) :
    ∃ q', (stepState s r).research_data = mkData q' := by
  cases r with
  | getPrompt name args =>
    rcases handle_get_prompt_cases name args s with
      ⟨_, he⟩ | ⟨_, _, he⟩ | ⟨_, args', q2, _, _, _, he⟩
    · exact ⟨q, by simp [stepState, he, h]⟩
    · exact ⟨q, by simp [stepState, he, h]⟩
    · exact ⟨q2, by simp [stepState, he, h, dictSet_mkData]⟩
  | listResources => exact ⟨q, h⟩
  | readResource uri => exact ⟨q, h⟩
  | listPrompts => exact ⟨q, h⟩
  | listTools => exact ⟨q, h⟩

/-- A whole trace preserves the shape of `research_data`. -/
theorem run_mkData (reqs : List Request) :
    ∀ (s : ResearchProcessor) (q : String), s.research_data = mkData q →
      ∃ q', (run s reqs).research_data = mkData q' := by
  induction reqs with
  | nil => exact fun _ q h => ⟨q, h⟩
  | cons r rest ih =>
    intro s q h
    rcases stepState_mkData s r q h with ⟨q1, h1⟩
    exact ih (stepState s r) q1 h1

/-- Every state reachable from process start has `research_data` of the
    fixed six-field shape. -/
theorem reachable_mkData (reqs : List Request) :
    ∃ q, (run initialProcessor reqs).research_data = mkData q :=
  run_mkData reqs initialProcessor "" rfl

/-- A successful call with the one-entry argument dict, fully evaluated:
    the returned result and the updated session state. -/
theorem handle_get_prompt_single (s : ResearchProcessor) (q : String) :
    handle_get_prompt "deep-research" (some [("research_question", q)]) s =
      (Except.ok
        { description := "Deep research template for: " ++ q,
          messages :=
            [{ role := "user",
               content := { type := "text",
                            text := pyStrip (formatPromptTemplate q) } }] },
       { research_data := dictSet s.research_data "question" (JValue.str q),
         notes := s.notes ++ ["Updated research data: question",
                              "Research initiated on question: " ++ q] }) := by
  simp [handle_get_prompt, lookupStr, update_research_data, add_note]

/-! The claims. -/

/-- Claim C2, evaluated at the failing input: `update_research_data` performs
    no key validation, so setting the unrecognized key `"bogus"` does not fail
    with any error — it silently appends a new `("bogus", ...)` entry to the
    record and still adds the "Updated research data: bogus" note.  (The
    second half of the claim holds: a recognized key is replaced in place and
    the note is appended, as the successful-call theorems show.) -/
theorem c2_unchecked_key_eval :
    (update_research_data initialProcessor "bogus" (.str "x")).research_data
        = initialProcessor.research_data ++ [("bogus", JValue.str "x")] ∧
    (update_research_data initialProcessor "bogus" (.str "x")).notes
        = ["Updated research data: bogus"] :=
  ⟨rfl, rfl⟩

/-- Claim C3, counterexample: `get_research_data` returns the live
    `research_data` record, not a copy, so the record observed through a
    snapshot taken at the initial state is changed by a later
    `setField("question", "X")` call — contradicting "a record returned by
    snapshot() is unaffected by any later setField call". -/
theorem c3_counterexample :
    ¬ (get_research_data (update_research_data initialProcessor "question" (.str "X"))
        = get_research_data initialProcessor) := by
  intro h
  have h1 : dictLookup (get_research_data
      (update_research_data initialProcessor "question" (JValue.str "X")))
      "question" = some (JValue.str "X") := rfl
  rw [h] at h1
  have h2 : dictLookup (get_research_data initialProcessor) "question"
      = some (JValue.str "") := rfl
  rw [h2] at h1
  injection h1 with h3
  injection h3 with h4
  exact absurd h4 (by decide)

/-- Claim C3 as amended: `get_research_data` returns the live state record
    (the Python method returns `self.research_data` without copying), so after
    a later `setField(k, v)` the record observed through it is the store's
    current record, with field `k` now `v`; the value serialized by
    `read-resource("research://data")` is the record as of the moment of that
    read call. -/
theorem c3_live_snapshot :
    ∀ (s : ResearchProcessor) (k : String) (v : JValue),
      get_research_data (update_research_data s k v)
          = dictSet (get_research_data s) k v ∧
      dictLookup (get_research_data (update_research_data s k v)) k = some v ∧
      handle_read_resource "research://data" s
          = .ok (jsonDumps2 (get_research_data s)) := by
  intro s k v
  exact ⟨rfl, dictLookup_dictSet_self _ _ _, rfl⟩

/-- Claim C7: the three listing handlers ignore the session state entirely —
    any two calls, whatever happened in between, return structurally equal
    results — and those results are exactly the two resource descriptors (notes
    then data), the one `deep-research` prompt descriptor with its single
    required `research_question` argument, and the empty tool list. -/
theorem c7_listings_constant :
    ∀ s s' : ResearchProcessor,
      handle_list_resources s = handle_list_resources s' ∧
      handle_list_prompts s = handle_list_prompts s' ∧
      handle_list_tools s = handle_list_tools s' ∧
      (handle_list_resources s).length = 2 ∧
      (handle_list_resources s).map Resource.uri
        = ["research://notes", "research://data"] ∧
      (handle_list_prompts s).length = 1 ∧
      handle_list_prompts s =
        [{ name := "deep-research",
           description := "A prompt to conduct deep research on a question",
           arguments :=
             [{ name := "research_question",
                description := "The research question to investigate",
                required := true }] }] ∧
      handle_list_tools s = [] := by
  intro s s'
  exact ⟨rfl, rfl, rfl, rfl, rfl, rfl, rfl, rfl⟩

/-- Claim C10: a `get-prompt("deep-research", \x7bresearch_question: ""\x7d)`
    call with the empty string as value succeeds — only the presence of the
    key is validated — so the question field is set to the empty string and
    the two notes are appended exactly as on any successful call. -/
theorem c10_empty_question_succeeds :
    (handle_get_prompt "deep-research" (some [("research_question", "")])
        initialProcessor).1.isOk = true ∧
    (handle_get_prompt "deep-research" (some [("research_question", "")])
        initialProcessor).2.research_data = mkData "" ∧
    dictLookup ((handle_get_prompt "deep-research" (some [("research_question", "")])
        initialProcessor).2.research_data) "question" = some (JValue.str "") ∧
    (handle_get_prompt "deep-research" (some [("research_question", "")])
        initialProcessor).2.notes
      = ["Updated research data: question", "Research initiated on question: "] :=
  ⟨rfl, rfl, rfl, rfl⟩

/-- Claim C1: for every prior session state and every string `q`, the
    `get-prompt("deep-research", \x7bresearch_question: q\x7d)` call succeeds,
    after it the data record's `question` field is `q` and
    `read-resource("research://data")` returns its JSON serialization, and the
    notes log gains "Updated research data: question" at index `|notes|` and
    "Research initiated on question: q" at the strictly later index
    `|notes| + 1`, with `read-resource("research://notes")` returning the
    newline join of the whole log. -/
theorem c1_round_trip :
    ∀ (s : ResearchProcessor) (q : String),
      handle_get_prompt "deep-research" (some [("research_question", q)]) s =
        (Except.ok
          { description := "Deep research template for: " ++ q,
            messages :=
              [{ role := "user",
                 content := { type := "text",
                              text := pyStrip (formatPromptTemplate q) } }] },
         { research_data := dictSet s.research_data "question" (JValue.str q),
           notes := s.notes ++ ["Updated research data: question",
                                "Research initiated on question: " ++ q] }) ∧
      dictLookup (dictSet s.research_data "question" (JValue.str q)) "question"
          = some (JValue.str q) ∧
      handle_read_resource "research://data"
          { research_data := dictSet s.research_data "question" (JValue.str q),
            notes := s.notes ++ ["Updated research data: question",
                                 "Research initiated on question: " ++ q] }
        = .ok (jsonDumps2 (dictSet s.research_data "question" (JValue.str q))) ∧
      (s.notes ++ ["Updated research data: question",
                   "Research initiated on question: " ++ q])[s.notes.length]?
          = some "Updated research data: question" ∧
      (s.notes ++ ["Updated research data: question",
                   "Research initiated on question: " ++ q])[s.notes.length + 1]?
          = some ("Research initiated on question: " ++ q) ∧
      s.notes.length < s.notes.length + 1 ∧
      handle_read_resource "research://notes"
          { research_data := dictSet s.research_data "question" (JValue.str q),
            notes := s.notes ++ ["Updated research data: question",
                                 "Research initiated on question: " ++ q] }
        = .ok (String.intercalate "\n"
            (s.notes ++ ["Updated research data: question",
                         "Research initiated on question: " ++ q])) := by
  intro s q
  refine ⟨handle_get_prompt_single s q, dictLookup_dictSet_self _ _ _, rfl, ?_, ?_,
    Nat.lt_succ_self _, rfl⟩
  · rw [List.getElem?_append_right (Nat.le_refl _)]
    simp
  · rw [List.getElem?_append_right (Nat.le_add_right _ 1)]
    simp

/-- Claim C4: a failing `get-prompt` call leaves the session state unchanged;
    in particular with the `research_question` argument absent (no dict, empty
    dict, or key missing) the call on the `deep-research` prompt fails with the
    missing-argument error, a subsequent `read-resource("research://data")`
    returns exactly what it returned before the call, and no note is appended;
    at process start the prior `question` value is the empty string. -/
theorem c4_no_partial_failure :
    ∀ (name : String) (args : Option (List (String × String))) (s : ResearchProcessor),
      ((handle_get_prompt name args s).1.isOk = false →
        (handle_get_prompt name args s).2 = s) ∧
      (questionMissing args = true →
        handle_get_prompt "deep-research" args s
            = (.error .missingArgument, s) ∧
        handle_read_resource "research://data"
            ((handle_get_prompt "deep-research" args s).2)
          = handle_read_resource "research://data" s ∧
        ((handle_get_prompt "deep-research" args s).2).notes = s.notes) ∧
      dictLookup (get_research_data initialProcessor) "question"
          = some (JValue.str "") := by
  intro name args s
  refine ⟨handle_get_prompt_error_state name args s, ?_, rfl⟩
  intro hm
  have he : handle_get_prompt "deep-research" args s = (.error .missingArgument, s) := by
    rcases handle_get_prompt_cases "deep-research" args s with
      ⟨hne, _⟩ | ⟨_, _, he⟩ | ⟨_, args', q, _, _, hf, _⟩
    · exact absurd rfl hne
    · exact he
    · rw [hm] at hf
      cases hf
  rw [he]
  exact ⟨rfl, rfl, rfl⟩

/-- Claim C5: `get-prompt` fails with the unknown-prompt error exactly when
    the prompt id is not "deep-research" (whatever the arguments, and without
    touching the notes), fails with the missing-argument error exactly when the
    id is "deep-research" but the arguments are absent, empty, or lack
    `research_question`, and succeeds otherwise. -/
theorem c5_get_prompt_errors :
    ∀ (name : String) (args : Option (List (String × String))) (s : ResearchProcessor),
      ((handle_get_prompt name args s).1 = .error (.unknownPrompt name) ↔
        name ≠ "deep-research") ∧
      ((handle_get_prompt name args s).1 = .error .missingArgument ↔
        (name = "deep-research" ∧ questionMissing args = true)) ∧
      ((handle_get_prompt name args s).1.isOk = true ↔
        (name = "deep-research" ∧ questionMissing args = false)) ∧
      (name ≠ "deep-research" → (handle_get_prompt name args s).2.notes = s.notes) := by
  intro name args s
  rcases handle_get_prompt_cases name args s with
    ⟨hne, he⟩ | ⟨hn, hm, he⟩ | ⟨hn, args', q, ha, hq, hf, he⟩
  · rw [he]
    refine ⟨by simp [hne], by simp [hne], ?_, fun _ => rfl⟩
    simp [hne, Except.isOk, Except.toBool]
  · rw [he]
    subst hn
    refine ⟨by simp, by simp [hm], ?_, fun hne => absurd rfl hne⟩
    simp [hm, Except.isOk, Except.toBool]
  · rw [he]
    subst hn
    refine ⟨by simp, by simp [hf], ?_, fun hne => absurd rfl hne⟩
    simp [hf, Except.isOk, Except.toBool]

/-- Claim C8: two sequential successful calls with questions `a` then `b`
    leave `question = b` (last write wins), and the notes log holds the
    initiation note for `a` strictly before the one for `b`. -/
theorem c8_sequential_calls :
    ∀ (s s1 s2 : ResearchProcessor) (a b : String),
      s1 = (handle_get_prompt "deep-research"
              (some [("research_question", a)]) s).2 →
      s2 = (handle_get_prompt "deep-research"
              (some [("research_question", b)]) s1).2 →
      dictLookup s2.research_data "question" = some (JValue.str b) ∧
      s2.notes = s.notes ++
        ["Updated research data: question", "Research initiated on question: " ++ a,
         "Updated research data: question", "Research initiated on question: " ++ b] ∧
      s2.notes[s.notes.length + 1]? = some ("Research initiated on question: " ++ a) ∧
      s2.notes[s.notes.length + 3]? = some ("Research initiated on question: " ++ b) ∧
      s.notes.length + 1 < s.notes.length + 3 := by
  intro s s1 s2 a b h1 h2
  subst h1
  rw [handle_get_prompt_single] at h2
  rw [handle_get_prompt_single] at h2
  subst h2
  refine ⟨dictLookup_dictSet_self _ _ _, by simp, ?_, ?_, by omega⟩
  · rw [List.append_assoc, List.getElem?_append_right (Nat.le_add_right _ 1)]
    simp
  · rw [List.append_assoc, List.getElem?_append_right (Nat.le_add_right _ 3)]
    simp

/-- Claim C9: any successful `get-prompt` on the `deep-research` prompt whose
    arguments map `research_question` to `q` — whatever other keys the map
    holds, they are ignored and cause no error — returns exactly one message,
    with role `user` and text content, whose body is the static template with
    the single placeholder replaced by `q` and the ends trimmed of whitespace. -/
theorem c9_rendered_message :
    ∀ (args : List (String × String)) (q : String) (s : ResearchProcessor),
      lookupStr args "research_question" = some q →
      (handle_get_prompt "deep-research" (some args) s).1 =
        .ok { description := "Deep research template for: " ++ q,
              messages :=
                [{ role := "user",
                   content := { type := "text",
                                text := pyStrip (formatPromptTemplate q) } }] } := by
  intro args q s h
  simp [handle_get_prompt, h]

/-- Claim C6: at every reachable session state,
    `read-resource("research://notes")` returns the notes joined by newline in
    insertion order, `read-resource("research://data")` returns the state
    record serialized as a JSON object with the six keys in their fixed order
    (demonstrated with 2-space indentation on the start state), the two mime
    types are as declared, and every other uri fails with the unknown-resource
    error. -/
theorem c6_read_resource_contract :
    ∀ (reqs : List Request),
      handle_read_resource "research://notes" (run initialProcessor reqs)
          = .ok (String.intercalate "\n" (run initialProcessor reqs).notes) ∧
      (∃ q, (run initialProcessor reqs).research_data = mkData q ∧
        handle_read_resource "research://data" (run initialProcessor reqs)
            = .ok (jsonDumps2 (mkData q)) ∧
        (mkData q).map Prod.fst
            = ["question", "elaboration", "subquestions", "search_results",
               "extracted_content", "final_report"]) ∧
      jsonDumps2 (mkData "") =
        "\x7b\n  \"question\": \"\",\n  \"elaboration\": \"\",\n  \"subquestions\": [],\n  \"search_results\": \x7b\x7d,\n  \"extracted_content\": \x7b\x7d,\n  \"final_report\": \"\"\n\x7d" ∧
      notesResourceDescriptor.mimeType = "text/plain" ∧
      dataResourceDescriptor.mimeType = "application/json" ∧
      (∀ uri : String, uri ≠ "research://notes" → uri ≠ "research://data" →
        handle_read_resource uri (run initialProcessor reqs)
            = .error (.unknownResource uri)) := by
  intro reqs
  refine ⟨rfl, ?_, rfl, rfl, rfl, ?_⟩
  · rcases reachable_mkData reqs with ⟨q, hq⟩
    refine ⟨q, hq, ?_, rfl⟩
    simp [handle_read_resource, get_research_data, hq]
  · intro uri h1 h2
    simp [handle_read_resource, h1, h2]

/-! Concrete witnesses for the claims whose theorems carry hypotheses. -/

/-- Witness for C4 at a concrete input: the empty argument dict on the
    `deep-research` prompt yields the missing-argument error and the untouched
    initial state. -/
theorem c4_witness :
    handle_get_prompt "deep-research" (some []) initialProcessor
      = (.error .missingArgument, initialProcessor) :=
  (((c4_no_partial_failure "deep-research" (some []) initialProcessor).2.1)
    (by decide)).1

/-- Witness for C5 at a concrete input: an unrecognized prompt id fails with
    the unknown-prompt error even with a well-formed argument dict. -/
theorem c5_witness :
    (handle_get_prompt "nope" (some [("research_question", "Q")])
        initialProcessor).1 = .error (.unknownPrompt "nope") :=
  ((c5_get_prompt_errors "nope" (some [("research_question", "Q")])
      initialProcessor).1).mpr (by decide)

/-- Witness for C6 at a concrete input: an unknown uri fails with the
    unknown-resource error on the empty trace. -/
theorem c6_witness :
    handle_read_resource "research://bogus" (run initialProcessor [])
      = .error (.unknownResource "research://bogus") :=
  (c6_read_resource_contract []).2.2.2.2.2 "research://bogus" (by decide) (by decide)

/-- Witness for C8 at a concrete input: after questions "A" then "B" from the
    start state, the stored question is "B". -/
theorem c8_witness :
    dictLookup ((handle_get_prompt "deep-research" (some [("research_question", "B")])
        ((handle_get_prompt "deep-research" (some [("research_question", "A")])
          initialProcessor).2)).2.research_data) "question"
      = some (JValue.str "B") :=
  (c8_sequential_calls initialProcessor _ _ "A" "B" rfl rfl).1

/-- Witness for C9 at a concrete input: an argument dict with an extra,
    unrecognized key still succeeds and returns the rendered template for its
    `research_question` value. -/
theorem c9_witness :
    (handle_get_prompt "deep-research"
        (some [("research_question", "Q"), ("unused_extra", "z")])
        initialProcessor).1 =
      .ok { description := "Deep research template for: " ++ "Q",
            messages :=
              [{ role := "user",
                 content := { type := "text",
                              text := pyStrip (formatPromptTemplate "Q") } }] } :=
  c9_rendered_message [("research_question", "Q"), ("unused_extra", "z")] "Q"
    initialProcessor rfl

end DeepResearch
